import Mathlib

/-!
# Verification of the GSD-222 Redpath ledger normalizer

This file gives a shallow embedding, in Lean 4, of the transformation
pipeline implemented by `process_file` in `src/app.py`, together with the
per-cell helper functions `determine_doc_type`, `format_balance` and
`parse_date` defined inside it, and proves/refutes the specified properties.

Modelling decisions (each mirrors the pandas/Python source):

* A spreadsheet cell is `Cell := Option String`: `none` models a pandas
  `NaN` (missing value); `some s` models a cell whose Python `str()`
  representation is `s`.  Python's `str(float('nan'))` is the string
  `"nan"`, which `cellStr` reproduces for `none` cells — this is load
  bearing for `determine_doc_type`/`format_balance`, which call
  `str(...)` on cells *without* an `isna` guard.
* A parsed file is a `List (List Cell)`.  pandas DataFrames are
  rectangular (ragged parses are NaN-padded), so the frame's column count
  `df.shape[1]` is the maximum row length and is unchanged by row
  slicing; `ncols` computes it from the full parsed table, and cells past
  a row's end read as `none` (the NaN padding).  `df.empty` holds for a
  parser-produced frame exactly when it has zero rows (every reachable
  nonempty parse has at least one column), modelled as `raw = []`.
* Python `float(...)` is modelled by `parsePyFloat` over exact rationals:
  optional surrounding whitespace, an optional sign, `inf`/`infinity`/
  `nan` case-insensitively, or a decimal literal with optional fraction,
  optional exponent, and underscores that must sit between two digits.
  A `PyFloat` keeps the sign separately from the magnitude so that the
  behaviour of `-0.0` (`-0.0 >= 0` is `True`, yet `f"{-0.0:.2f}"` prints
  `"-0.00"`) is reproduced.  CPython parses to an IEEE double and
  formats with round-half-even on that double; the embedding rounds the
  exact rational half-to-even, which agrees except at binary
  representation boundaries (and at overflow to infinity), none of which
  the specified behaviours involve.  Non-ASCII digits are not modelled.
* `datetime.strptime` for the seven literal formats of the source is
  modelled field by field: `%d` and `%m` accept one or two ASCII digits
  in range (no `"0"`/`"00"`), `%Y` exactly four digits with year ≥ 1,
  `%b` a case-insensitive English month abbreviation, literal `/` and
  `-` separators must match exactly with the whole string consumed, and
  a space in the format matches a nonempty run of spaces (Python allows
  any whitespace there; only `' '` is modelled).  The constructed
  `datetime` validates the day against the month length including leap
  years.  Output `strftime("%d/%m/%Y")` zero-pads day/month to 2 and
  year to 4 digits.
* `pd.to_datetime(val, dayfirst=True, errors="coerce")`, the permissive
  fallback parser (the external dateutil/pandas parsing stack), is not
  part of this repository; it is abstracted as a parameter
  `fb : String → Option PyDate` threaded through the pipeline (with
  `errors="coerce"` it returns a no-match sentinel rather than raising,
  so `Option` is the faithful shape).
* Python `str.strip()` / `str.lower()` / `str.endswith` / `str.replace`
  with a single-character pattern and empty replacement are modelled on
  character lists (`trimChars`, `lowerStr`, suffix test, `List.filter`);
  only ASCII whitespace and ASCII case folding are modelled.
-/

namespace App

/-- A spreadsheet cell: `none` is pandas NaN, `some s` a value whose
Python string representation is `s`. -/
abbrev Cell := Option String

/-- Python `str(cell)`: a NaN cell prints as `"nan"`. -/
def cellStr (c : Cell) : String :=
  match c with
  | none => "nan"
  | some s => s

/-- ASCII whitespace, the characters Python `str.strip()` removes that
can occur in parsed cell text. -/
def isSpaceChar (c : Char) : Bool :=
  c == ' ' || c == '\t' || c == '\n' || c == '\r'

/-- Python `str.strip()` on a character list. -/
def trimChars (cs : List Char) : List Char :=
  ((cs.dropWhile isSpaceChar).reverse.dropWhile isSpaceChar).reverse

/-- The source's recurring blank test `pd.notna(x) and str(x).strip() != ""`:
`true` exactly when the cell is present and nonblank after stripping. -/
def nonBlank (c : Cell) : Bool :=
  match c with
  | none => false
  | some s => !(trimChars s.data).isEmpty

/-- Python `str.lower()` (ASCII case folding). -/
def lowerStr (s : String) : String :=
  String.mk (s.data.map Char.toLower)

/-- Python `str.endswith(suffix)`. -/
def endsWithStr (s suffix : String) : Bool :=
  suffix.data.isSuffixOf s.data

/-- The dispatch test of `process_file`:
`file.name.lower().endswith(".csv")` or `.endswith((".xls", ".xlsx"))`. -/
def supportedExt (fname : String) : Bool :=
  endsWithStr (lowerStr fname) ".csv" || endsWithStr (lowerStr fname) ".xls"
    || endsWithStr (lowerStr fname) ".xlsx"

/-- The value of a Python float: NaN, a signed infinity, or a finite
value given as a sign bit (`true` = negative) and a nonnegative exact
magnitude.  The sign is kept apart from the magnitude so `-0.0` is
distinguishable from `0.0`, as in CPython. -/
inductive PyFloat where
  | nan : PyFloat
  | inf : Bool → PyFloat
  | fin : Bool → Rat → PyFloat
  deriving DecidableEq

/-- Python `x >= 0` on a float: `False` for NaN, sign test otherwise
(`-0.0 >= 0` is `True`). -/
def pyGeZero (v : PyFloat) : Bool :=
  match v with
  | .nan => false
  | .inf b => !b
  | .fin b m => !b || m == 0

/-- Python `x < 0` on a float: `False` for NaN and for `-0.0`. -/
def pyLtZero (v : PyFloat) : Bool :=
  match v with
  | .nan => false
  | .inf b => b
  | .fin b m => b && m != 0

/-- Numeric value of a list of ASCII digits. -/
def digitsVal (ds : List Char) : Nat :=
  ds.foldl (fun a c => a * 10 + (c.toNat - 48)) 0

/-- CPython's underscore rule for numeric literals: every `'_'` must be
immediately between two digits.  First argument is the previous
character, if any. -/
def underscoresOK : Option Char → List Char → Bool
  | _, [] => true
  | prev, c :: rest =>
    if c == '_' then
      (match prev with
       | some p => p.isDigit
       | none => false)
      && (match rest with
          | d :: _ => d.isDigit
          | [] => false)
      && underscoresOK (some c) rest
    else underscoresOK (some c) rest

/-- The exact rational value `n·10^e / 10^f` of a decimal literal with
digits worth `n`, `f` fractional digits and exponent `±e`, built with
`mkRat` alone so that it evaluates by kernel reduction. -/
def decimalValue (n f : Nat) (eneg : Bool) (e : Nat) : Rat :=
  if eneg then mkRat (Int.ofNat n) (10 ^ (f + e))
  else mkRat (Int.ofNat (n * 10 ^ e)) (10 ^ f)

/-- Parse `[+-] digits` after the `e` of a float literal; `n` and `f`
are the mantissa's digit value and fraction length. -/
def parseExponent (neg : Bool) (n f : Nat) (r : List Char) : Option PyFloat :=
  let eneg := match r with
    | '-' :: _ => true
    | _ => false
  let r1 := match r with
    | '-' :: t => t
    | '+' :: t => t
    | t => t
  let ed := r1.takeWhile (·.isDigit)
  let rest := r1.dropWhile (·.isDigit)
  if ed.isEmpty || !rest.isEmpty then none
  else some (.fin neg (decimalValue n f eneg (digitsVal ed)))

/-- Parse the mantissa-and-exponent part of a float literal (sign already
removed, no underscores, not `inf`/`nan`).  Grammar of CPython
`float(...)`: `digits [. digits] | . digits`, then optionally
`e`/`E`, an optional sign and a nonempty digit run, with the whole
input consumed. -/
def parseDecimal (neg : Bool) (cs : List Char) : Option PyFloat :=
  let ip := cs.takeWhile (·.isDigit)
  let rest1 := cs.dropWhile (·.isDigit)
  let hasDot := match rest1 with
    | '.' :: _ => true
    | _ => false
  let afterDot := if hasDot then rest1.tail else rest1
  let fp := if hasDot then afterDot.takeWhile (·.isDigit) else []
  let rest2 := if hasDot then afterDot.dropWhile (·.isDigit) else rest1
  if ip.isEmpty && fp.isEmpty then none
  else
    let n := digitsVal (ip ++ fp)
    match rest2 with
    | [] => some (.fin neg (decimalValue n fp.length false 0))
    | 'e' :: r => parseExponent neg n fp.length r
    | 'E' :: r => parseExponent neg n fp.length r
    | _ => none

/-- Python `float(str)` on the characters of the (already `,`/`$`
stripped) string: strip whitespace, optional sign, then `inf`,
`infinity` or `nan` case-insensitively, or a decimal literal;
underscores must sit between digits. -/
def parsePyFloat (cs : List Char) : Option PyFloat :=
  let t := trimChars cs
  if !underscoresOK none t then none
  else
    let t := t.filter (fun c => c != '_')
    let signed := match t with
      | '-' :: r => (true, r)
      | '+' :: r => (false, r)
      | r => (false, r)
    let neg := signed.1
    let body := signed.2
    let low := body.map Char.toLower
    if low == "inf".data || low == "infinity".data then some (.inf neg)
    else if low == "nan".data then some .nan
    else parseDecimal neg body

/-- Round a nonnegative rational, scaled by 100, to the nearest integer
with ties to even — the rounding of CPython's fixed-point `:.2f`
formatting.  Works on the numerator and denominator directly to stay
kernel-computable. -/
def roundCents (x : Rat) : Nat :=
  let p := x.num.toNat * 100
  let q := x.den
  let n := p / q
  let r := p % q
  if 2 * r < q then n
  else if q < 2 * r then n + 1
  else if n % 2 = 0 then n else n + 1

/-- Zero-pad a natural number to two digits. -/
def pad2 (n : Nat) : String :=
  if n < 10 then "0" ++ Nat.repr n else Nat.repr n

/-- Zero-pad a natural number to four digits. -/
def pad4 (n : Nat) : String :=
  if n < 10 then "000" ++ Nat.repr n
  else if n < 100 then "00" ++ Nat.repr n
  else if n < 1000 then "0" ++ Nat.repr n
  else Nat.repr n

/-- Render a count of hundredths as a two-decimal fixed-point numeral. -/
def fmtCents (n : Nat) : String :=
  Nat.repr (n / 100) ++ "." ++ pad2 (n % 100)

/-- Python `f"{x:.2f}"` on a float value: `nan`/`inf`/`-inf` print as
such; a finite value prints its magnitude rounded half-to-even at two
decimals, with a `-` sign whenever the sign bit is set (so `-0.001`
prints `"-0.00"`). -/
def pyFmt2 (v : PyFloat) : String :=
  match v with
  | .nan => "nan"
  | .inf b => if b then "-inf" else "inf"
  | .fin b m => (if b then "-" else "") ++ fmtCents (roundCents m)

/-- `str(balance).replace(",", "").replace("$", "")` — both patterns are
single characters and the replacement is empty, so this is a filter. -/
def stripBal (c : Cell) : List Char :=
  (cellStr c).data.filter (fun ch => ch != ',' && ch != '$')

/-- The source's `determine_doc_type`: parse the stripped balance as a
Python float; `"INV"` if it is `>= 0`, `"CRD"` otherwise; any parse
failure (`except`) defaults to `"INV"`. -/
def determine_doc_type (c : Cell) : String :=
  match parsePyFloat (stripBal c) with
  | some v => if pyGeZero v then "INV" else "CRD"
  | none => "INV"

/-- The source's `format_balance`: parse the stripped balance as a
Python float and format it `:.2f`; any failure yields `"0.00"`. -/
def format_balance (c : Cell) : String :=
  match parsePyFloat (stripBal c) with
  | some v => pyFmt2 v
  | none => "0.00"

/-- A calendar date as produced by `datetime.strptime` /
`pd.to_datetime` (year ≥ 1, month 1–12, day valid for the month). -/
structure PyDate where
  year : Nat
  month : Nat
  day : Nat
  deriving DecidableEq

/-- Gregorian leap-year test (as in Python `datetime`). -/
def isLeap (y : Nat) : Bool :=
  (y % 4 == 0 && y % 100 != 0) || y % 400 == 0

/-- Number of days in a month (as validated by `datetime`). -/
def daysInMonth (y m : Nat) : Nat :=
  if m = 2 then (if isLeap y then 29 else 28)
  else if m = 4 ∨ m = 6 ∨ m = 9 ∨ m = 11 then 30
  else 31

/-- Construct the `datetime` date, validating the day against the month
length (strptime raises on e.g. 31/02). -/
def mkDate (y m d : Nat) : Option PyDate :=
  if d ≤ daysInMonth y m then some ⟨y, m, d⟩ else none

/-- strptime `%d`: one or two ASCII digits, value 1–31. -/
def parseDayField (cs : List Char) : Option Nat :=
  if cs.length ≤ 2 && !cs.isEmpty && cs.all (·.isDigit)
      && 1 ≤ digitsVal cs && digitsVal cs ≤ 31 then
    some (digitsVal cs)
  else none

/-- strptime `%m`: one or two ASCII digits, value 1–12. -/
def parseMonthField (cs : List Char) : Option Nat :=
  if cs.length ≤ 2 && !cs.isEmpty && cs.all (·.isDigit)
      && 1 ≤ digitsVal cs && digitsVal cs ≤ 12 then
    some (digitsVal cs)
  else none

/-- strptime `%Y`: exactly four ASCII digits, and `datetime` requires
year ≥ 1. -/
def parseYearField (cs : List Char) : Option Nat :=
  if cs.length = 4 && cs.all (·.isDigit) && 1 ≤ digitsVal cs then
    some (digitsVal cs)
  else none

/-- The C-locale English month abbreviations matched by strptime `%b`. -/
def monthAbbrevs : List (List Char) :=
  ["jan".data, "feb".data, "mar".data, "apr".data, "may".data, "jun".data,
   "jul".data, "aug".data, "sep".data, "oct".data, "nov".data, "dec".data]

/-- strptime `%b`: case-insensitive month abbreviation, giving 1–12. -/
def parseMonthAbbrev (cs : List Char) : Option Nat :=
  match monthAbbrevs.findIdx? (fun m => m == cs.map Char.toLower) with
  | some i => some (i + 1)
  | none => none

/-- Split a character list on every occurrence of a separator character
(like Python `re` matching of a literal separator: fields may be
empty, which the field parsers then reject). -/
def splitChar (sep : Char) : List Char → List (List Char)
  | [] => [[]]
  | c :: rest =>
    if c == sep then [] :: splitChar sep rest
    else
      match splitChar sep rest with
      | h :: t => (c :: h) :: t
      | [] => [[c]]

/-- strptime with format `%d<sep>%m<sep>%Y` on the whole string. -/
def fmtDMY (sep : Char) (cs : List Char) : Option PyDate :=
  match splitChar sep cs with
  | [ds, ms, ys] => do
    mkDate (← parseYearField ys) (← parseMonthField ms) (← parseDayField ds)
  | _ => none

/-- strptime with format `%Y<sep>%m<sep>%d` on the whole string. -/
def fmtYMD (sep : Char) (cs : List Char) : Option PyDate :=
  match splitChar sep cs with
  | [ys, ms, ds] => do
    mkDate (← parseYearField ys) (← parseMonthField ms) (← parseDayField ds)
  | _ => none

/-- strptime with format `%m<sep>%d<sep>%Y` on the whole string. -/
def fmtMDY (sep : Char) (cs : List Char) : Option PyDate :=
  match splitChar sep cs with
  | [ms, ds, ys] => do
    mkDate (← parseYearField ys) (← parseMonthField ms) (← parseDayField ds)
  | _ => none

/-- strptime with format `%d-%b-%Y` on the whole string. -/
def fmtDbY (cs : List Char) : Option PyDate :=
  match splitChar '-' cs with
  | [ds, bs, ys] => do
    mkDate (← parseYearField ys) (← parseMonthAbbrev bs) (← parseDayField ds)
  | _ => none

/-- strptime with format `%d %b %Y`: a space in the format matches a run
of whitespace between fields, but no leading or trailing whitespace is
admitted (the regex is anchored and must consume the whole string). -/
def fmtDbYspace (cs : List Char) : Option PyDate :=
  let parts := splitChar ' ' cs
  if parts.head? = some [] ∨ parts.getLast? = some [] then none
  else
    match parts.filter (fun p => !p.isEmpty) with
    | [ds, bs, ys] => do
      mkDate (← parseYearField ys) (← parseMonthAbbrev bs) (← parseDayField ds)
    | _ => none

/-- The seven literal formats of `parse_date`, in the source's order:
`%d/%m/%Y`, `%Y-%m-%d`, `%d-%m-%Y`, `%m/%d/%Y`, `%Y/%m/%d`,
`%d-%b-%Y`, `%d %b %Y`. -/
def dateFormats : List (List Char → Option PyDate) :=
  [fmtDMY '/', fmtYMD '-', fmtDMY '-', fmtMDY '/', fmtYMD '/',
   fmtDbY, fmtDbYspace]

/-- The `for fmt in (...)` loop of `parse_date`: first format that
parses wins. -/
def tryFormats (cs : List Char) : Option PyDate :=
  dateFormats.findSome? (fun f => f cs)

/-- `strftime("%d/%m/%Y")`. -/
def fmtDDMMYYYY (d : PyDate) : String :=
  pad2 d.day ++ "/" ++ pad2 d.month ++ "/" ++ pad4 d.year

/-- The source's `parse_date`, with the external permissive parser
`pd.to_datetime(val, dayfirst=True, errors="coerce")` abstracted as
`fb` (with `errors="coerce"` it returns a sentinel on no match, never
raising).  Missing or blank input gives `""`; then the seven literal
formats are tried in order; then the fallback; if everything fails the
original string is returned verbatim. -/
def parse_date (fb : String → Option PyDate) (val : Cell) : String :=
  match val with
  | none => ""
  | some s =>
    if (trimChars s.data).isEmpty then ""
    else
      match tryFormats s.data with
      | some d => fmtDDMMYYYY d
      | none =>
        match fb s with
        | some d => fmtDDMMYYYY d
        | none => s

/-- The four retained columns of a post-trim row: positions 0 (A),
2 (C), 3 (D), 13 (N) of `df.iloc[:, [0, 2, 3, 13]]`. -/
structure Row4 where
  colA : Cell
  colC : Cell
  colD : Cell
  colN : Cell
  deriving DecidableEq

/-- Column selection on one row; cells past the row's end are the NaN
padding of the rectangular frame. -/
def selectCols (row : List Cell) : Row4 :=
  ⟨row.getD 0 none, row.getD 2 none, row.getD 3 none, row.getD 13 none⟩

/-- Step 4 of the source: `df.iloc[1:, 0] = df.iloc[:-1, 0].values` then
`df.iloc[0, 0] = ""`.  `prev` is the value moving down into the
current row; the first call receives the `""` written into row 0. -/
def shiftAux : Cell → List Row4 → List Row4
  | _, [] => []
  | prev, r :: rs => { r with colA := prev } :: shiftAux r.colA rs

/-- The column-A shift: row 0's column A becomes the string `""`, row i
receives row (i-1)'s previous column-A value; columns C, D, N are
untouched. -/
def shiftA (rows : List Row4) : List Row4 :=
  shiftAux (some "") rows

/-- Step 9 of the source: forward-fill of the debtor reference.  `ref`
is the running `debtor_ref`, initialized to the Python string `""`;
a non-blank cell updates it, a blank cell is overwritten by it. -/
def fillRefs : Cell → List Row4 → List Row4
  | _, [] => []
  | ref, r :: rs =>
    if nonBlank r.colA then r :: fillRefs r.colA rs
    else { r with colA := ref } :: fillRefs ref rs

/-- Modelled from the spec: the "current reference" of the forward-fill
stage, as the spec words it — the last non-blank debtor-reference cell
seen so far, or the initial reference.  Used only to compare the
source's `fillRefs` against the spec's description. -/
def runningRef (ref : Cell) (cells : List Cell) : Cell :=
  cells.foldl (fun r c => if nonBlank c then c else r) ref

/-- One output record of the pipeline (one row of the `output` frame).
`debtorReference` and `documentNumber` are the (possibly filled /
copied) cells; the other three fields are the derived strings. -/
structure NormalizedRecord where
  debtorReference : Cell
  documentNumber : Cell
  documentDate : String
  documentBalance : String
  documentType : String
  deriving DecidableEq

/-- Field derivation for one (shifted, filled) row: steps 10, 12, 13 of
the source.  `determine_doc_type` reads the raw balance cell (it runs
before the balance column is reformatted). -/
def deriveRecord (fb : String → Option PyDate) (r : Row4) : NormalizedRecord :=
  { debtorReference := r.colA
    documentNumber := r.colC
    documentDate := parse_date fb r.colD
    documentBalance := format_balance r.colN
    documentType := determine_doc_type r.colN }

/-- The final filter of the source: keep rows whose debtor reference and
document number are present and nonblank after stripping. -/
def keepRecord (rec : NormalizedRecord) : Bool :=
  nonBlank rec.debtorReference && nonBlank rec.documentNumber

/-- Stages 3–5 on the trimmed table: column select, column-A shift,
forward-fill (from the initial `debtor_ref = ""`), field derivation. -/
def derivedRecords (fb : String → Option PyDate) (trimmed : List (List Cell)) :
    List NormalizedRecord :=
  (fillRefs (some "") (shiftA (trimmed.map selectCols))).map (deriveRecord fb)

/-- The whole body guarded by `if not df.empty:` — when the trimmed
frame is empty the `output` frame stays empty; otherwise derive and
filter. -/
def processTrimmed (fb : String → Option PyDate) (trimmed : List (List Cell)) :
    List NormalizedRecord :=
  if trimmed.isEmpty then []
  else (derivedRecords fb trimmed).filter keepRecord

/-- `df.shape[1]` of the parsed frame: pandas pads ragged parses, so the
column count is the maximum row length and is unchanged by `iloc` row
slicing. -/
def ncols (raw : List (List Cell)) : Nat :=
  raw.foldr (fun r m => max r.length m) 0

/-- Pipeline-level errors of `process_file` (each is an `st.error`
message followed by `return None`). -/
inductive NormError where
  | UnsupportedFormat : NormError
  | EmptyInput : NormError
  | InsufficientColumns : NormError
  deriving DecidableEq

deriving instance DecidableEq for Except

/-- The whole of `process_file`, with parsing of the raw bytes
abstracted away: the caller supplies the filename (used only for the
extension dispatch), the parsed rectangular table, and the abstracted
permissive date parser.  The column-count check of the source runs on
the trimmed frame, whose `shape[1]` equals the parsed frame's. -/
def normalize (fname : String) (fb : String → Option PyDate)
    (raw : List (List Cell)) : Except NormError (List NormalizedRecord) :=
  if supportedExt fname = false then .error .UnsupportedFormat
  else if raw = [] then .error .EmptyInput
  else if ncols raw < 14 then .error .InsufficientColumns
  else .ok (processTrimmed fb (raw.drop 13))

/-! ## Helper lemmas -/

theorem nonBlank_some_empty : nonBlank (some "") = false := by decide

theorem shiftAux_length (p : Cell) (rows : List Row4) :
    (shiftAux p rows).length = rows.length := by
  induction rows generalizing p with
  | nil => rfl
  | cons r rs ih => simp [shiftAux, ih]

theorem shiftAux_spec (p : Cell) (rows : List Row4) :
    (∀ (r : Row4), (shiftAux p rows)[0]? = some r → r.colA = p)
    ∧ (∀ (i : Nat) (r r0 : Row4), (shiftAux p rows)[i + 1]? = some r → rows[i]? = some r0 →
        r.colA = r0.colA)
    ∧ (∀ (i : Nat) (r r0 : Row4), (shiftAux p rows)[i]? = some r → rows[i]? = some r0 →
        r.colC = r0.colC ∧ r.colD = r0.colD ∧ r.colN = r0.colN) := by
  induction rows generalizing p with
  | nil => simp [shiftAux]
  | cons r rs ih =>
    refine ⟨?_, ?_, ?_⟩
    · intro r1 h
      simp [shiftAux] at h
      simp [← h]
    · intro i r1 r0 h1 h0
      cases i with
      | zero =>
        simp [shiftAux] at h1 h0
        exact h0 ▸ ((ih r.colA).1 r1 h1)
      | succ j =>
        simp only [shiftAux, List.getElem?_cons_succ] at h1 h0
        exact (ih r.colA).2.1 j r1 r0 h1 h0
    · intro i r1 r0 h1 h0
      cases i with
      | zero =>
        simp [shiftAux] at h1 h0
        subst h0
        simp [← h1]
      | succ j =>
        simp only [shiftAux, List.getElem?_cons_succ] at h1 h0
        exact (ih r.colA).2.2 j r1 r0 h1 h0

theorem fillRefs_length (ref : Cell) (rows : List Row4) :
    (fillRefs ref rows).length = rows.length := by
  induction rows generalizing ref with
  | nil => rfl
  | cons r rs ih =>
    by_cases h : nonBlank r.colA
    · simp [fillRefs, h, ih]
    · simp [fillRefs, h, ih]

theorem runningRef_cons (ref c : Cell) (cs : List Cell) :
    runningRef ref (c :: cs) = runningRef (if nonBlank c then c else ref) cs := by
  by_cases h : nonBlank c <;> simp [runningRef, h]

theorem fillRefs_spec (ref : Cell) (rows : List Row4) :
    ∀ (i : Nat) (r r0 : Row4), (fillRefs ref rows)[i]? = some r → rows[i]? = some r0 →
      (r.colC = r0.colC ∧ r.colD = r0.colD ∧ r.colN = r0.colN)
      ∧ r.colA = (if nonBlank r0.colA then r0.colA
                  else runningRef ref ((rows.take i).map Row4.colA)) := by
  induction rows generalizing ref with
  | nil => simp [fillRefs]
  | cons r rs ih =>
    intro i r1 r0 h1 h0
    cases i with
    | zero =>
      have hr : r = r0 := by simpa using h0
      subst hr
      by_cases h : nonBlank r.colA
      · simp only [fillRefs, h, if_true, List.getElem?_cons_zero,
          Option.some.injEq] at h1
        simp [← h1, h, runningRef]
      · simp only [fillRefs, h, if_false, Bool.false_eq_true,
          List.getElem?_cons_zero, Option.some.injEq] at h1
        simp [← h1, h, runningRef]
    | succ j =>
      have hstep : (fillRefs ref (r :: rs))[j + 1]? =
          (fillRefs (if nonBlank r.colA then r.colA else ref) rs)[j]? := by
        by_cases h : nonBlank r.colA <;> simp [fillRefs, h]
      rw [hstep] at h1
      simp only [List.getElem?_cons_succ] at h0
      have hmain := ih (if nonBlank r.colA then r.colA else ref) j r1 r0 h1 h0
      refine ⟨hmain.1, ?_⟩
      rw [hmain.2]
      have htake : (((r :: rs).take (j + 1)).map Row4.colA) =
          r.colA :: ((rs.take j).map Row4.colA) := by simp
      rw [htake, runningRef_cons]

/-! ## Claim theorems -/

/-- C6: after column selection, the column-A shift moves the retained
first column down one row — row 0's debtor-reference-source cell becomes
the blank string, row i (i ≥ 1) receives the cell previously at row
i-1, the three other retained columns are untouched, and no rows are
added or dropped. -/
theorem claim_C6_columnA_shift (rows : List Row4) :
    (shiftA rows).length = rows.length
    ∧ (∀ (r : Row4), (shiftA rows)[0]? = some r → r.colA = some "")
    ∧ (∀ (i : Nat) (r r0 : Row4), (shiftA rows)[i + 1]? = some r → rows[i]? = some r0 →
        r.colA = r0.colA)
    ∧ (∀ (i : Nat) (r r0 : Row4), (shiftA rows)[i]? = some r → rows[i]? = some r0 →
        r.colC = r0.colC ∧ r.colD = r0.colD ∧ r.colN = r0.colN) :=
  ⟨shiftAux_length _ rows, (shiftAux_spec _ rows).1,
   (shiftAux_spec _ rows).2.1, (shiftAux_spec _ rows).2.2⟩

/-- Witness for C6 on a concrete two-row table. -/
theorem claim_C6_columnA_shift_witness :
    (shiftA [⟨some "a", some "c", some "d", some "n"⟩,
             ⟨some "a2", some "c2", some "d2", some "n2"⟩]).length = 2
    ∧ ((shiftA [⟨some "a", some "c", some "d", some "n"⟩,
             ⟨some "a2", some "c2", some "d2", some "n2"⟩])[1]?).map Row4.colA
        = some (some "a") := by
  refine ⟨(claim_C6_columnA_shift _).1, ?_⟩
  have h := (claim_C6_columnA_shift
    [⟨some "a", some "c", some "d", some "n"⟩,
     ⟨some "a2", some "c2", some "d2", some "n2"⟩]).2.2.1 0
    ⟨some "a", some "c2", some "d2", some "n2"⟩
    ⟨some "a", some "c", some "d", some "n"⟩ (by decide) (by decide)
  decide

/-- C2: the forward-fill of the debtor reference visits every row in
order with a running reference that starts as the blank string: a
non-blank cell (after stripping) becomes the new running reference, a
blank cell is overwritten by it; the other columns and the row count are
untouched, and the fill runs over all rows — the reference a row
receives is the last non-blank debtor-reference cell among ALL earlier
rows, dropped or not.  On cells ["D1", "", "", "D2", ""] the filled
references are ["D1", "D1", "D1", "D2", "D2"]. -/
theorem claim_C2_forward_fill (ref : Cell) (rows : List Row4) :
    (fillRefs ref rows).length = rows.length
    ∧ (∀ (i : Nat) (r r0 : Row4), (fillRefs ref rows)[i]? = some r → rows[i]? = some r0 →
        (r.colC = r0.colC ∧ r.colD = r0.colD ∧ r.colN = r0.colN)
        ∧ r.colA = (if nonBlank r0.colA then r0.colA
                    else runningRef ref ((rows.take i).map Row4.colA)))
    ∧ (fillRefs (some "")
        ([some "D1", some "", some "", some "D2", some ""].map
          (fun c => Row4.mk c none none none))).map Row4.colA
        = [some "D1", some "D1", some "D1", some "D2", some "D2"] :=
  ⟨fillRefs_length ref rows, fillRefs_spec ref rows, by decide⟩

/-- Witness for C2: the characterization applied at row 2 of the
example table, whose blank cell receives the reference propagated from
row 0. -/
theorem claim_C2_forward_fill_witness :
    ((fillRefs (some "")
        ([some "D1", some "", some "", some "D2", some ""].map
          (fun c => Row4.mk c none none none)))[2]?).map Row4.colA
      = some (some "D1") := by
  have h := (claim_C2_forward_fill (some "")
    ([some "D1", some "", some "", some "D2", some ""].map
      (fun c => Row4.mk c none none none))).2.1 2
    ⟨some "D1", none, none, none⟩ ⟨some "", none, none, none⟩
    (by decide) (by decide)
  decide

theorem derivedRecords_length (fb : String → Option PyDate)
    (trimmed : List (List Cell)) :
    (derivedRecords fb trimmed).length = trimmed.length := by
  simp [derivedRecords, fillRefs_length, shiftA, shiftAux_length]

theorem derivedRecords_fields (fb : String → Option PyDate)
    (trimmed : List (List Cell)) :
    ∀ (i : Nat) (rec : NormalizedRecord) (row : List Cell),
      (derivedRecords fb trimmed)[i]? = some rec → trimmed[i]? = some row →
      rec.documentNumber = row.getD 2 none
      ∧ rec.documentDate = parse_date fb (row.getD 3 none)
      ∧ rec.documentBalance = format_balance (row.getD 13 none)
      ∧ rec.documentType = determine_doc_type (row.getD 13 none) := by
  intro i rec row h1 h0
  simp only [derivedRecords, List.getElem?_map] at h1
  obtain ⟨r, hr, hrec⟩ := Option.map_eq_some'.mp h1
  have hlen : i < (shiftA (trimmed.map selectCols)).length := by
    have : i < (fillRefs (some "") (shiftA (trimmed.map selectCols))).length :=
      List.getElem?_eq_some_iff.mp hr |>.1
    rwa [fillRefs_length] at this
  have hsh : (shiftA (trimmed.map selectCols))[i]? =
      some ((shiftA (trimmed.map selectCols))[i]) :=
    List.getElem?_eq_getElem hlen
  have hsel : (trimmed.map selectCols)[i]? = some (selectCols row) := by
    simp [List.getElem?_map, h0]
  have hfill := fillRefs_spec (some "") (shiftA (trimmed.map selectCols)) i r
    ((shiftA (trimmed.map selectCols))[i]) hr hsh
  have hshift := (shiftAux_spec (some "") (trimmed.map selectCols)).2.2 i
    ((shiftA (trimmed.map selectCols))[i]) (selectCols row) hsh hsel
  subst hrec
  refine ⟨?_, ?_, ?_, ?_⟩ <;>
    simp [deriveRecord, hfill.1.1, hfill.1.2.1, hfill.1.2.2,
      hshift.1, hshift.2.1, hshift.2.2, selectCols]

theorem processTrimmed_eq_filter (fb : String → Option PyDate)
    (t : List (List Cell)) :
    processTrimmed fb t = (derivedRecords fb t).filter keepRecord := by
  by_cases h : t.isEmpty
  · have ht : t = [] := by simpa using h
    subst ht
    simp [processTrimmed, derivedRecords, shiftA, shiftAux, fillRefs]
  · simp [processTrimmed, h]

theorem normalize_unsupported_iff (fname : String)
    (fb : String → Option PyDate) (raw : List (List Cell)) :
    normalize fname fb raw = .error .UnsupportedFormat ↔
      supportedExt fname = false := by
  simp only [normalize]
  split_ifs with h1 h2 h3 <;> simp_all

theorem normalize_empty_iff (fname : String)
    (fb : String → Option PyDate) (raw : List (List Cell)) :
    normalize fname fb raw = .error .EmptyInput ↔
      supportedExt fname = true ∧ raw = [] := by
  simp only [normalize]
  split_ifs with h1 h2 h3 <;> simp_all

theorem normalize_cols_iff (fname : String)
    (fb : String → Option PyDate) (raw : List (List Cell)) :
    normalize fname fb raw = .error .InsufficientColumns ↔
      supportedExt fname = true ∧ raw ≠ [] ∧ ncols raw < 14 := by
  simp only [normalize]
  split_ifs with h1 h2 h3 <;> simp_all

theorem normalize_ok_intro (fname : String) (fb : String → Option PyDate)
    (raw : List (List Cell)) (h1 : supportedExt fname = true) (h2 : raw ≠ [])
    (h3 : 14 ≤ ncols raw) :
    normalize fname fb raw = .ok (processTrimmed fb (raw.drop 13)) := by
  simp [normalize, h1, h2, Nat.not_lt.mpr h3]

theorem normalize_ok_elim {fname : String} {fb : String → Option PyDate}
    {raw : List (List Cell)} {out : List NormalizedRecord}
    (h : normalize fname fb raw = .ok out) :
    out = (derivedRecords fb (raw.drop 13)).filter keepRecord
    ∧ supportedExt fname = true ∧ raw ≠ [] ∧ 14 ≤ ncols raw := by
  simp only [normalize] at h
  split_ifs at h with h1 h2 h3
  have hb : supportedExt fname = true := by
    cases hval : supportedExt fname
    · exact absurd hval h1
    · rfl
  refine ⟨?_, hb, h2, by omega⟩
  rw [← processTrimmed_eq_filter]
  exact (Except.ok.inj h).symm

/-- C1: the pipeline fails in exactly three ways — `UnsupportedFormat`
exactly when the lowercased filename ends in none of `.csv`, `.xls`,
`.xlsx`; `EmptyInput` exactly when the extension is supported and the
parsed table has zero rows; `InsufficientColumns` exactly when, in
addition, the frame has fewer than 14 columns — and on every other
input it succeeds (the post-check stages are total functions, so no
cell contents can make them fail); in particular a supported nonempty
input with at least 14 columns and at most 13 rows gives `ok []`. -/
theorem claim_C1_error_taxonomy (fname : String) (fb : String → Option PyDate)
    (raw : List (List Cell)) :
    (normalize fname fb raw = .error .UnsupportedFormat ↔
      supportedExt fname = false)
    ∧ (normalize fname fb raw = .error .EmptyInput ↔
      supportedExt fname = true ∧ raw = [])
    ∧ (normalize fname fb raw = .error .InsufficientColumns ↔
      supportedExt fname = true ∧ raw ≠ [] ∧ ncols raw < 14)
    ∧ (supportedExt fname = true → raw ≠ [] → 14 ≤ ncols raw →
      normalize fname fb raw = .ok (processTrimmed fb (raw.drop 13)))
    ∧ (supportedExt fname = true → raw ≠ [] → 14 ≤ ncols raw →
      raw.length ≤ 13 → normalize fname fb raw = .ok []) := by
  refine ⟨normalize_unsupported_iff fname fb raw, normalize_empty_iff fname fb raw,
    normalize_cols_iff fname fb raw, normalize_ok_intro fname fb raw, ?_⟩
  intro h1 h2 h3 hlen
  have hdrop : raw.drop 13 = [] := by
    refine List.eq_nil_of_length_eq_zero ?_
    simp [List.length_drop]
    omega
  rw [normalize_ok_intro fname fb raw h1 h2 h3, hdrop]
  simp [processTrimmed]

/-- Witness for C1: a one-row, 14-column CSV input (uppercase extension)
passes every check and yields the empty table. -/
theorem claim_C1_error_taxonomy_witness :
    normalize "Report.CSV" (fun _ => Option.none)
      [List.replicate 14 (some "x")] = .ok [] :=
  (claim_C1_error_taxonomy "Report.CSV" (fun _ => Option.none)
    [List.replicate 14 (some "x")]).2.2.2.2 (by decide) (by decide)
    (by decide) (by decide)

theorem derivedRecords_cons (fb : String → Option PyDate) (t0 : List Cell)
    (ts : List (List Cell)) :
    derivedRecords fb (t0 :: ts) =
      deriveRecord fb { selectCols t0 with colA := some "" } ::
        (fillRefs (some "")
          (shiftAux (selectCols t0).colA (ts.map selectCols))).map
          (deriveRecord fb) := by
  simp [derivedRecords, shiftA, shiftAux, fillRefs, nonBlank_some_empty]

/-- C8: the column check — `InsufficientColumns` exactly when the frame
(whose column count survives the row trim unchanged) has fewer than 14
columns — and column retention: the emitted pipeline depends on the
rows only through positions 0, 2, 3 and 13, and those positions feed,
in that order, Debtor Reference (via shift and fill), Document Number,
Document Date and Document Balance. -/
theorem claim_C8_column_selection (fname : String)
    (fb : String → Option PyDate) (raw raw2 : List (List Cell)) :
    (normalize fname fb raw = .error .InsufficientColumns ↔
      supportedExt fname = true ∧ raw ≠ [] ∧ ncols raw < 14)
    ∧ (raw.length = raw2.length → ncols raw = ncols raw2 →
      (∀ (i : Nat), (raw[i]?).map
          (fun row => (row.getD 0 none, row.getD 2 none,
            row.getD 3 none, row.getD 13 none))
        = (raw2[i]?).map
          (fun row => (row.getD 0 none, row.getD 2 none,
            row.getD 3 none, row.getD 13 none))) →
      normalize fname fb raw = normalize fname fb raw2)
    ∧ (∀ (i : Nat) (rec : NormalizedRecord) (row : List Cell),
        (derivedRecords fb (raw.drop 13))[i]? = some rec →
        (raw.drop 13)[i]? = some row →
        rec.documentNumber = row.getD 2 none
        ∧ rec.documentDate = parse_date fb (row.getD 3 none)
        ∧ rec.documentBalance = format_balance (row.getD 13 none)
        ∧ rec.documentType = determine_doc_type (row.getD 13 none)) := by
  refine ⟨normalize_cols_iff fname fb raw, ?_, derivedRecords_fields fb _⟩
  intro hlen hcols hsel
  have hmap : (raw.drop 13).map selectCols = (raw2.drop 13).map selectCols := by
    apply List.ext_getElem?
    intro i
    have h13 := hsel (13 + i)
    rw [List.getElem?_map, List.getElem?_map, List.getElem?_drop,
      List.getElem?_drop]
    cases hx : raw[13 + i]? with
    | none =>
      have : raw2[13 + i]? = none := by
        rw [List.getElem?_eq_none_iff] at hx ⊢
        omega
      rw [this]
    | some rowx =>
      rw [hx] at h13
      cases hy : raw2[13 + i]? with
      | none =>
        rw [hy] at h13
        simp at h13
      | some rowy =>
        rw [hy] at h13
        simp only [Option.map_some', Option.some.injEq, Prod.mk.injEq] at h13
        simp only [Option.map_some', Option.some.injEq, selectCols,
          Row4.mk.injEq]
        exact ⟨h13.1, h13.2.1, h13.2.2.1, h13.2.2.2⟩
  have hempty : (raw = []) = (raw2 = []) := by
    cases raw <;> cases raw2 <;> simp_all
  have htlen : (raw.drop 13).length = (raw2.drop 13).length := by
    simp [List.length_drop, hlen]
  simp only [normalize, hcols, hempty]
  have hpt : processTrimmed fb (raw.drop 13) = processTrimmed fb (raw2.drop 13) := by
    simp only [processTrimmed, derivedRecords, hmap]
    have : (raw.drop 13).isEmpty = (raw2.drop 13).isEmpty := by
      cases hr1 : raw.drop 13 <;> cases hr2 : raw2.drop 13 <;> simp_all
    rw [this]
  rw [hpt]

/-- Witness for C8: a one-column input is rejected, and the field
sources hold on a concrete 14-row, 14-column table. -/
theorem claim_C8_column_selection_witness :
    normalize "a.xls" (fun _ => Option.none) [[some "only"]] =
      .error .InsufficientColumns := by
  have h := (claim_C8_column_selection "a.xls" (fun _ => Option.none)
    [[some "only"]] []).1
  exact h.mpr ⟨by decide, by decide, by decide⟩

/-- C7: every emitted record has a debtor reference and a document
number that are non-blank after stripping; the output is a subsequence
of the derived (pre-filter) records, so surviving rows keep their
relative order; and every derived record with both keys non-blank is
emitted. -/
theorem claim_C7_filter_invariant (fname : String)
    (fb : String → Option PyDate) (raw : List (List Cell))
    (out : List NormalizedRecord)
    (hok : normalize fname fb raw = .ok out) :
    (∀ rec ∈ out,
      nonBlank rec.debtorReference = true ∧ nonBlank rec.documentNumber = true)
    ∧ List.Sublist out (derivedRecords fb (raw.drop 13))
    ∧ (∀ rec ∈ derivedRecords fb (raw.drop 13),
        nonBlank rec.debtorReference = true →
        nonBlank rec.documentNumber = true → rec ∈ out) := by
  obtain ⟨hout, -, -, -⟩ := normalize_ok_elim hok
  subst hout
  refine ⟨?_, List.filter_sublist _, ?_⟩
  · intro rec hrec
    have hk := List.of_mem_filter hrec
    simp only [keepRecord, Bool.and_eq_true] at hk
    exact hk
  · intro rec hmem h1 h2
    exact List.mem_filter.mpr ⟨hmem, by simp [keepRecord, h1, h2]⟩

/-- Witness for C7 on a concrete successful run: the surviving record
has both keys non-blank. -/
theorem claim_C7_filter_invariant_witness :
    nonBlank ({ debtorReference := some "R1", documentNumber := some "N2",
                documentDate := "16/01/2024", documentBalance := "-20.00",
                documentType := "CRD" } : NormalizedRecord).debtorReference
      = true
    ∧ nonBlank ({ debtorReference := some "R1", documentNumber := some "N2",
                  documentDate := "16/01/2024", documentBalance := "-20.00",
                  documentType := "CRD" } : NormalizedRecord).documentNumber
      = true :=
  (claim_C7_filter_invariant "f.csv" (fun _ => Option.none)
    ((List.replicate 13 (List.replicate 14 (some "h"))) ++
      [[some "R1", none, some "N1", some "15/01/2024"] ++
        List.replicate 9 none ++ [some "100"],
       [some "R2", none, some "N2", some "16/01/2024"] ++
        List.replicate 9 none ++ [some "-20"]])
    [{ debtorReference := some "R1", documentNumber := some "N2",
       documentDate := "16/01/2024", documentBalance := "-20.00",
       documentType := "CRD" }] (by decide)).1
    { debtorReference := some "R1", documentNumber := some "N2",
      documentDate := "16/01/2024", documentBalance := "-20.00",
      documentType := "CRD" } (by decide)

/-- C10: on every successful run the first post-trim row is never
emitted — its debtor reference is the blank written by the shift, so
the filter drops it — and hence an input with R rows yields at most
R - 14 records (truncated subtraction: at most max(0, R-14)). -/
theorem claim_C10_first_row_dropped (fname : String)
    (fb : String → Option PyDate) (raw : List (List Cell))
    (out : List NormalizedRecord)
    (hok : normalize fname fb raw = .ok out) :
    out.length ≤ raw.length - 14
    ∧ (∀ (rec : NormalizedRecord) (rest : List NormalizedRecord),
        derivedRecords fb (raw.drop 13) = rec :: rest →
        rec.debtorReference = some "") := by
  obtain ⟨hout, -, -, -⟩ := normalize_ok_elim hok
  have hhead : ∀ (t0 : List Cell) (ts : List (List Cell))
      (rec : NormalizedRecord) (rest : List NormalizedRecord),
      derivedRecords fb (t0 :: ts) = rec :: rest →
      rec.debtorReference = some "" := by
    intro t0 ts rec rest hcons
    rw [derivedRecords_cons] at hcons
    injection hcons with hr hrest
    rw [← hr]
    rfl
  refine ⟨?_, ?_⟩
  · subst hout
    cases htr : raw.drop 13 with
    | nil =>
      simp [derivedRecords, shiftA, shiftAux, fillRefs]
    | cons t0 ts =>
      have hdl : (raw.drop 13).length = raw.length - 13 := List.length_drop 13 raw
      rw [htr] at hdl
      simp only [List.length_cons] at hdl
      cases hd : derivedRecords fb (t0 :: ts) with
      | nil =>
        simp
      | cons rec rest =>
        have hrec : rec.debtorReference = some "" := hhead t0 ts rec rest hd
        have hkeep : keepRecord rec = false := by
          simp [keepRecord, hrec, nonBlank_some_empty]
        rw [List.filter_cons_of_neg (by simp [hkeep])]
        have hle : (List.filter keepRecord rest).length ≤ rest.length :=
          List.length_filter_le _ _
        have hlend : (derivedRecords fb (t0 :: ts)).length = ts.length + 1 := by
          rw [derivedRecords_length]
          rfl
        rw [hd] at hlend
        simp only [List.length_cons] at hlend
        omega
  · intro rec rest hcons
    cases htr : raw.drop 13 with
    | nil =>
      rw [htr] at hcons
      simp [derivedRecords, shiftA, shiftAux, fillRefs] at hcons
    | cons t0 ts =>
      rw [htr] at hcons
      exact hhead t0 ts rec rest hcons

/-- Witness for C10 on a concrete successful 15-row run: at most one
record comes out. -/
theorem claim_C10_first_row_dropped_witness :
    ([{ debtorReference := some "R1", documentNumber := some "N2",
        documentDate := "16/01/2024", documentBalance := "-20.00",
        documentType := "CRD" : NormalizedRecord }] :
      List NormalizedRecord).length ≤
      ((List.replicate 13 (List.replicate 14 (some "h")) :
        List (List Cell)) ++
       [[some "R1", none, some "N1", some "15/01/2024"] ++
         List.replicate 9 none ++ [some "100"],
        [some "R2", none, some "N2", some "16/01/2024"] ++
         List.replicate 9 none ++ [some "-20"]]).length - 14 := by
  have h := (claim_C10_first_row_dropped "f.csv" (fun _ => Option.none)
    ((List.replicate 13 (List.replicate 14 (some "h"))) ++
      [[some "R1", none, some "N1", some "15/01/2024"] ++
        List.replicate 9 none ++ [some "100"],
       [some "R2", none, some "N2", some "16/01/2024"] ++
        List.replicate 9 none ++ [some "-20"]])
    [{ debtorReference := some "R1", documentNumber := some "N2",
       documentDate := "16/01/2024", documentBalance := "-20.00",
       documentType := "CRD" }] (by decide)).1
  exact h

/-- Counterexample to C3 as stated: a missing (blank) Document Balance
cell.  `str(nan)` is `"nan"`, which `float(...)` parses successfully as
NaN, so the "parse failure" branch (`"0.00"`/`INV`) is not taken; yet
NaN is neither `>= 0` nor `< 0`, the emitted type is `CRD` and the
emitted balance is the string `"nan"`, not a two-decimal numeral.  The
full pipeline emits such a record for a reachable input. -/
theorem claim_C3_counterexample :
    parsePyFloat (stripBal (none : Cell)) = some PyFloat.nan
    ∧ pyGeZero PyFloat.nan = false
    ∧ pyLtZero PyFloat.nan = false
    ∧ determine_doc_type (none : Cell) = "CRD"
    ∧ format_balance (none : Cell) = "nan"
    ∧ normalize "bal.csv" (fun _ => Option.none)
        ((List.replicate 13 (List.replicate 14 (some "h"))) ++
          [[some "R1"] ++ List.replicate 13 none,
           [some "R2", none, some "N2"] ++ List.replicate 11 none]) =
        .ok [{ debtorReference := some "R1", documentNumber := some "N2",
               documentDate := "", documentBalance := "nan",
               documentType := "CRD" }] := by decide

/-- C3 as amended: every emitted balance/type pair comes from
`format_balance`/`determine_doc_type` on the raw column-N cell; when
the comma/dollar-stripped cell text does not parse as a Python float
the defaults are `"0.00"`/`INV`; when it parses to a finite value the
balance is that value at two decimals (sign included) and the type is
`CRD` exactly for a negative nonzero value, `INV` otherwise; when it
parses to NaN (e.g. a blank cell) the pair is `"nan"`/`CRD`, and for
infinities `"inf"`/`"-inf"` with `INV`/`CRD`; the three specified
examples hold. -/
theorem claim_C3_balance_amended (fb : String → Option PyDate)
    (trimmed : List (List Cell)) :
    (∀ (i : Nat) (rec : NormalizedRecord) (row : List Cell),
        (derivedRecords fb trimmed)[i]? = some rec → trimmed[i]? = some row →
        rec.documentBalance = format_balance (row.getD 13 none)
        ∧ rec.documentType = determine_doc_type (row.getD 13 none))
    ∧ (∀ (c : Cell), parsePyFloat (stripBal c) = none →
        format_balance c = "0.00" ∧ determine_doc_type c = "INV")
    ∧ (∀ (c : Cell) (b : Bool) (m : Rat),
        parsePyFloat (stripBal c) = some (.fin b m) →
        format_balance c = (if b then "-" else "") ++ fmtCents (roundCents m)
        ∧ determine_doc_type c = (if b && m != 0 then "CRD" else "INV"))
    ∧ (∀ (c : Cell), parsePyFloat (stripBal c) = some .nan →
        format_balance c = "nan" ∧ determine_doc_type c = "CRD")
    ∧ (∀ (c : Cell) (b : Bool), parsePyFloat (stripBal c) = some (.inf b) →
        format_balance c = (if b then "-inf" else "inf")
        ∧ determine_doc_type c = (if b then "CRD" else "INV"))
    ∧ (format_balance (some "1,234.5") = "1234.50"
        ∧ determine_doc_type (some "1,234.5") = "INV"
        ∧ format_balance (some "-50") = "-50.00"
        ∧ determine_doc_type (some "-50") = "CRD"
        ∧ format_balance (some "abc") = "0.00"
        ∧ determine_doc_type (some "abc") = "INV") := by
  refine ⟨?_, ?_, ?_, ?_, ?_, by decide⟩
  · intro i rec row hr hrow
    have h := derivedRecords_fields fb trimmed i rec row hr hrow
    exact ⟨h.2.2.1, h.2.2.2⟩
  · intro c h
    simp [format_balance, determine_doc_type, h]
  · intro c b m h
    constructor
    · simp [format_balance, h, pyFmt2]
    · simp only [determine_doc_type, h, pyGeZero]
      cases b
      · simp
      · by_cases hm : m = 0 <;> simp [hm]
  · intro c h
    simp [format_balance, determine_doc_type, h, pyFmt2, pyGeZero]
  · intro c b h
    cases b <;>
      simp [format_balance, determine_doc_type, h, pyFmt2, pyGeZero]

/-- Witness for C3 (amended) at a concrete row with balance `"-50"`. -/
theorem claim_C3_balance_amended_witness :
    ({ debtorReference := some "", documentNumber := some "",
       documentDate := "", documentBalance := "-50.00",
       documentType := "CRD" } : NormalizedRecord).documentBalance =
        format_balance
          ((List.replicate 13 (some "") ++ [some "-50"]).getD 13 none)
    ∧ ({ debtorReference := some "", documentNumber := some "",
         documentDate := "", documentBalance := "-50.00",
         documentType := "CRD" } : NormalizedRecord).documentType =
        determine_doc_type
          ((List.replicate 13 (some "") ++ [some "-50"]).getD 13 none) :=
  (claim_C3_balance_amended (fun _ => Option.none)
    [List.replicate 13 (some "") ++ [some "-50"]]).1 0
    { debtorReference := some "", documentNumber := some "",
      documentDate := "", documentBalance := "-50.00",
      documentType := "CRD" }
    (List.replicate 13 (some "") ++ [some "-50"]) (by decide) (by decide)

theorem findSome_first {α β : Type} (x : α) :
    ∀ (l : List (α → Option β)) (i : Nat) (f : α → Option β) (d : β),
      l[i]? = some f → f x = some d →
      (∀ (j : Nat) (g : α → Option β), j < i → l[j]? = some g → g x = none) →
      l.findSome? (fun h => h x) = some d := by
  intro l
  induction l with
  | nil => intro i f d h; simp at h
  | cons f0 fs ih =>
    intro i f d hf hfx hprior
    cases i with
    | zero =>
      simp only [List.getElem?_cons_zero, Option.some.injEq] at hf
      subst hf
      simp [List.findSome?_cons, hfx]
    | succ j =>
      have h0 : f0 x = none := hprior 0 f0 (Nat.succ_pos j) (by simp)
      simp only [List.findSome?_cons, h0]
      exact ih j f d (by simpa using hf) hfx
        (fun k g hk hg => hprior (k + 1) g (by omega) (by simpa using hg))

/-- C4: `parse_date` tries the seven literal formats in the source's
fixed order — if format `i` matches and every earlier one fails, the
result is the match re-emitted as `DD/MM/YYYY`, whatever the permissive
fallback would say; only when all seven fail is the day-first fallback
consulted, its success also re-emitted as `DD/MM/YYYY`; missing or
blank input yields the empty string; and the two specified examples
parse via the `%Y-%m-%d` and `%d-%b-%Y` formats. -/
theorem claim_C4_date_priority (fb : String → Option PyDate) (s : String)
    (d : PyDate) :
    (∀ (i : Nat) (f : List Char → Option PyDate),
        (trimChars s.data).isEmpty = false →
        dateFormats[i]? = some f → f s.data = some d →
        (∀ (j : Nat) (g : List Char → Option PyDate), j < i →
          dateFormats[j]? = some g → g s.data = none) →
        parse_date fb (some s) = fmtDDMMYYYY d)
    ∧ ((trimChars s.data).isEmpty = false → tryFormats s.data = none →
        fb s = some d → parse_date fb (some s) = fmtDDMMYYYY d)
    ∧ parse_date fb none = ""
    ∧ ((trimChars s.data).isEmpty = true → parse_date fb (some s) = "")
    ∧ parse_date fb (some "2024-01-15") = "15/01/2024"
    ∧ parse_date fb (some "15-Jan-2024") = "15/01/2024" := by
  refine ⟨?_, ?_, rfl, ?_, rfl, rfl⟩
  · intro i f hblank hf hfx hprior
    have ht : tryFormats s.data = some d :=
      findSome_first s.data dateFormats i f d hf hfx hprior
    rw [parse_date, if_neg (by simp [hblank]), ht]
  · intro hblank htf hfb
    simp [parse_date, hblank, htf, hfb]
  · intro hblank
    simp [parse_date, hblank]

/-- Witness for C4: `"2024-01-15"` is parsed by the second format
(`%Y-%m-%d`) once the first (`%d/%m/%Y`) has failed, and the fallback
(here: one that always fails) is never consulted. -/
theorem claim_C4_date_priority_witness :
    parse_date (fun _ => Option.none) (some "2024-01-15") =
      fmtDDMMYYYY ⟨2024, 1, 15⟩ := by
  refine (claim_C4_date_priority (fun _ => Option.none) "2024-01-15"
    ⟨2024, 1, 15⟩).1 1 (fmtYMD '-') (by decide) ?_ (by decide) ?_
  · rfl
  · intro j g hj hg
    interval_cases j
    have hgv : fmtDMY '/' = g := by
      simpa [dateFormats] using hg
    rw [← hgv]
    decide

/-- Counterexample to C5 as stated: `"notadate"` matches none of the
seven literal formats and the permissive fallback (abstracted; with
`errors="coerce"` pandas returns its no-match sentinel on this input)
also fails, yet `parse_date` returns the original string, not the
empty string — the source's final line is `return str(val)`. -/
theorem claim_C5_counterexample :
    (trimChars "notadate".data).isEmpty = false
    ∧ tryFormats "notadate".data = none
    ∧ parse_date (fun _ => Option.none) (some "notadate") = "notadate"
    ∧ ¬ parse_date (fun _ => Option.none) (some "notadate") = "" := by
  decide

/-- C5 as amended: when a non-blank value matches none of the seven
literal formats and the fallback also fails, `parse_date` emits the
original string unchanged (and, being a total function, never
raises). -/
theorem claim_C5_fallthrough_amended (fb : String → Option PyDate)
    (s : String) (hb : (trimChars s.data).isEmpty = false)
    (ht : tryFormats s.data = none) (hfb : fb s = none) :
    parse_date fb (some s) = s := by
  simp [parse_date, hb, ht, hfb]

/-- Witness for C5 (amended): `"31/02/2024"` fails every literal format
(February has no day 31) and the failing fallback, and passes through
verbatim. -/
theorem claim_C5_fallthrough_amended_witness :
    parse_date (fun _ => Option.none) (some "31/02/2024") = "31/02/2024" :=
  claim_C5_fallthrough_amended (fun _ => Option.none) "31/02/2024"
    (by decide) (by decide) rfl

/-- Counterexample to C9 as stated: the cleanest possible 15-row table
— 13 header rows, then two fully-populated data rows with column-N
values `"100"` and `"-20"` — yields a ONE-row output whose only type is
`CRD`.  The `"100"` row can never be emitted: the column-A shift blanks
its debtor reference, so the output never contains the `INV` record the
example promises. -/
theorem claim_C9_counterexample :
    normalize "ledger.csv" (fun _ => Option.none)
      ((List.replicate 13 (List.replicate 14 (some "h"))) ++
        [[some "R1", none, some "N1", some "15/01/2024"] ++
          List.replicate 9 none ++ [some "100"],
         [some "R2", none, some "N2", some "16/01/2024"] ++
          List.replicate 9 none ++ [some "-20"]]) =
      .ok [{ debtorReference := some "R1", documentNumber := some "N2",
             documentDate := "16/01/2024", documentBalance := "-20.00",
             documentType := "CRD" }]
    ∧ [({ debtorReference := some "R1", documentNumber := some "N2",
          documentDate := "16/01/2024", documentBalance := "-20.00",
          documentType := "CRD" } : NormalizedRecord)].map
        NormalizedRecord.documentType = ["CRD"]
    ∧ (["CRD"] : List String) ≠ ["INV", "CRD"] := by decide

/-- C9 as amended: a 15-row raw table (13 header rows plus two data
rows) with at least 14 columns and column-N values `"100"`, `"-20"`
normalizes successfully to AT MOST ONE record; any emitted record is
the `"-20"` row's, with type `CRD` and balance `"-20.00"`; the
pre-filter derived types of the two data rows are `INV` and `CRD`
respectively (the `INV` row is always removed by the filter because the
column-A shift blanks its debtor reference). -/
theorem claim_C9_end_to_end_amended (fname : String)
    (fb : String → Option PyDate) (hdr : List (List Cell))
    (r1 r2 : List Cell) (hh : hdr.length = 13)
    (hext : supportedExt fname = true)
    (hc : 14 ≤ ncols (hdr ++ [r1, r2]))
    (h1 : r1.getD 13 none = some "100")
    (h2 : r2.getD 13 none = some "-20") :
    ∃ out, normalize fname fb (hdr ++ [r1, r2]) = .ok out
      ∧ out.length ≤ 1
      ∧ (∀ rec ∈ out,
          rec.documentType = "CRD" ∧ rec.documentBalance = "-20.00")
      ∧ (derivedRecords fb [r1, r2]).map NormalizedRecord.documentType
          = ["INV", "CRD"] := by
  have hdrop : (hdr ++ [r1, r2]).drop 13 = [r1, r2] := by
    rw [← hh]
    exact List.drop_left hdr [r1, r2]
  have hne : (hdr ++ [r1, r2]) ≠ [] := by simp
  have hok := normalize_ok_intro fname fb (hdr ++ [r1, r2]) hext hne hc
  rw [hdrop, processTrimmed_eq_filter] at hok
  have hn1 : (selectCols r1).colN = some "100" := h1
  have hn2 : (selectCols r2).colN = some "-20" := h2
  have hder : derivedRecords fb [r1, r2] =
      [deriveRecord fb { selectCols r1 with colA := some "" },
       deriveRecord fb { selectCols r2 with colA :=
         (if nonBlank (selectCols r1).colA then (selectCols r1).colA
          else some "") }] := by
    by_cases hb : nonBlank (selectCols r1).colA <;>
      simp [derivedRecords, shiftA, shiftAux, fillRefs, nonBlank_some_empty,
        hb]
  have htype1 :
      (deriveRecord fb { selectCols r1 with colA := some "" }).documentType
        = "INV" := by
    simp only [deriveRecord]
    rw [show ({ selectCols r1 with colA := some "" } : Row4).colN = some "100"
      from hn1]
    decide
  have hrec2 : ∀ (a : Cell),
      (deriveRecord fb { selectCols r2 with colA := a }).documentType = "CRD"
      ∧ (deriveRecord fb { selectCols r2 with colA := a }).documentBalance
        = "-20.00" := by
    intro a
    simp only [deriveRecord]
    rw [show ({ selectCols r2 with colA := a } : Row4).colN = some "-20"
      from hn2]
    exact ⟨by decide, by decide⟩
  have hka : keepRecord
      (deriveRecord fb { selectCols r1 with colA := some "" }) = false := by
    simp [keepRecord, deriveRecord, nonBlank_some_empty]
  refine ⟨(derivedRecords fb [r1, r2]).filter keepRecord, hok, ?_, ?_, ?_⟩
  · rw [hder, List.filter_cons_of_neg (by simp [hka])]
    exact (List.length_filter_le _ _).trans (by simp)
  · intro rec hrec
    rw [hder] at hrec
    have hm := List.mem_filter.mp hrec
    have hmem := hm.1
    rw [List.filter_cons_of_neg (by simp [hka])] at hrec
    have hm2 := List.mem_filter.mp hrec
    have : rec = deriveRecord fb { selectCols r2 with colA :=
        (if nonBlank (selectCols r1).colA then (selectCols r1).colA
         else some "") } := by
      simpa using hm2.1
    rw [this]
    exact hrec2 _
  · rw [hder]
    simp [htype1, (hrec2 _).1]

/-- Witness for C9 (amended) on a concrete table of the required
shape. -/
theorem claim_C9_end_to_end_amended_witness :
    ∃ out, normalize "book.xlsx" (fun _ => Option.none)
      ((List.replicate 13 (List.replicate 14 (some "hd"))) ++
        [[some "S1", none, some "M1", none] ++
          List.replicate 9 none ++ [some "100"],
         [some "S2", none, some "M2", none] ++
          List.replicate 9 none ++ [some "-20"]]) = .ok out
      ∧ out.length ≤ 1
      ∧ (∀ rec ∈ out,
          rec.documentType = "CRD" ∧ rec.documentBalance = "-20.00")
      ∧ (derivedRecords (fun _ => Option.none)
          [[some "S1", none, some "M1", none] ++
            List.replicate 9 none ++ [some "100"],
           [some "S2", none, some "M2", none] ++
            List.replicate 9 none ++ [some "-20"]]).map
          NormalizedRecord.documentType = ["INV", "CRD"] :=
  claim_C9_end_to_end_amended "book.xlsx" (fun _ => Option.none)
    (List.replicate 13 (List.replicate 14 (some "hd")))
    ([some "S1", none, some "M1", none] ++
      List.replicate 9 none ++ [some "100"])
    ([some "S2", none, some "M2", none] ++
      List.replicate 9 none ++ [some "-20"])
    (by decide) (by decide) (by decide) (by decide) (by decide)

end App
